import Mathlib

/-!
Verification of the Elliott-wave projection engine and the viewport/indexing
model of the StockAnalysis repository.

The projection engine is the logic core of `CalculatorView`
(src/components/WaveChart.tsx): it validates the four entered price pivots
and derives the wave-3/4/5 targets.  The viewport/indexing model lives in
`SmartChartComponent`: visible-range derivation from pan offset and zoom,
synchronous re-indexing when older candles are prepended, the trailing
volume moving average with its anomaly flag, and the Granville signal
classifier.  JavaScript numbers are modelled as exact rationals and the
fallible paths as `Option`-valued results.
-/

/-- Validation failures of the projection engine.  Each constructor stands for
one of the four fixed error messages set by the `useEffect` logic core. -/
inductive WaveError where
  | p1NotAboveP0
  | p2BrokeBelowP0
  | p2NotBelowP1
  | p3NotAboveP2
deriving DecidableEq, Repr

/-- The human-readable message attached to each validation failure, exactly as
in the source. -/
def errorMessage : WaveError → String
  | WaveError.p1NotAboveP0 => "第 1 波高點必須高於起漲點 (P1 > P0)"
  | WaveError.p2BrokeBelowP0 => "波浪理論鐵律：第 2 波低點不能低於起漲點 (P2 破底)"
  | WaveError.p2NotBelowP1 => "第 2 波必須是回調 (P2 < P1)"
  | WaveError.p3NotAboveP2 => "第 3 波高點必須高於 P2"

/-- Manual calculator inputs (`WaveInputs` in src/types).  Each field is
`number | ''` in the source; the empty string is modelled as `none`. -/
structure WaveInputs where
  p0 : Option ℚ
  p1 : Option ℚ
  p2 : Option ℚ
  p3 : Option ℚ
  current : Option ℚ
deriving DecidableEq, Repr

/-- Derived projection output (`CalculationResult` in src/types). -/
structure CalculationResult where
  isValid : Bool
  error : Option WaveError
  w1Height : ℚ
  w2RetracementPct : ℚ
  w3Min : ℚ
  w3Gold : ℚ
  w4Target : ℚ
  w5Target : ℚ
  selectedRatio : ℚ
  usingManualP3 : Bool
deriving DecidableEq, Repr

/-- The initial `result` state of `CalculatorView` (the `useState` initial
value). -/
def initialResult : CalculationResult :=
  { isValid := false
    error := none
    w1Height := 0
    w2RetracementPct := 0
    w3Min := 0
    w3Gold := 0
    w4Target := 0
    w5Target := 0
    selectedRatio := 0.382
    usingManualP3 := false }

/-- The successful branch of the logic core: the final `setResult` call,
with `activeW3Peak` being the manual P3 when supplied and `w3Gold`
otherwise. -/
def mkValidResult (valP2 w1Height w2RetracementPct w3Min w3Gold fibRatio : ℚ)
    (valP3o : Option ℚ) : CalculationResult :=
  let activeW3Peak := valP3o.getD w3Gold
  let w3Height := activeW3Peak - valP2
  let w4Target := activeW3Peak - w3Height * fibRatio
  let w5Target := w4Target + w1Height
  { isValid := true
    error := none
    w1Height := w1Height
    w2RetracementPct := w2RetracementPct
    w3Min := w3Min
    w3Gold := w3Gold
    w4Target := w4Target
    w5Target := w5Target
    selectedRatio := fibRatio
    usingManualP3 := valP3o.isSome }

/-- The projection engine: the `useEffect` logic core of `CalculatorView`.
`prev` is the previous `result` state; on any failure the source writes
`setResult(prev => ... )` keeping every numeric field of `prev`. -/
def computeResult (prev : CalculationResult) (inputs : WaveInputs)
    (fibRatio : ℚ) : CalculationResult :=
  match inputs.p0, inputs.p1, inputs.p2 with
  | some valP0, some valP1, some valP2 =>
    if valP1 ≤ valP0 then
      { prev with isValid := false, error := some WaveError.p1NotAboveP0 }
    else if valP2 ≤ valP0 then
      { prev with isValid := false, error := some WaveError.p2BrokeBelowP0 }
    else if valP1 ≤ valP2 then
      { prev with isValid := false, error := some WaveError.p2NotBelowP1 }
    else
      let w1Height := valP1 - valP0
      let w2RetracementPct := (valP1 - valP2) / w1Height * 100
      let w3Min := valP2 + w1Height
      let w3Gold := valP2 + w1Height * 1.618
      match inputs.p3 with
      | some valP3 =>
        if valP3 ≤ valP2 then
          { prev with isValid := false, error := some WaveError.p3NotAboveP2 }
        else
          mkValidResult valP2 w1Height w2RetracementPct w3Min w3Gold fibRatio
            (some valP3)
      | none =>
          mkValidResult valP2 w1Height w2RetracementPct w3Min w3Gold fibRatio
            none
  | _, _, _ => { prev with isValid := false, error := none }

/-- One OHLCV bar (`CandleData` in src/types). -/
structure CandleData where
  date : String
  open_ : ℚ
  high : ℚ
  low : ℚ
  close : ℚ
  volume : ℚ
deriving DecidableEq, Repr

instance : Inhabited CandleData := ⟨⟨"", 0, 0, 0, 0, 0⟩⟩

/-- First visible candle index: `Math.floor(Math.max(0, effectiveOffset))`. -/
def visibleStartIndex (effectiveOffset : ℚ) : ℤ :=
  ⌊max 0 effectiveOffset⌋

/-- Last visible candle index:
`Math.min(data.length - 1, Math.ceil(effectiveOffset + zoom))`. -/
def visibleEndIndex (dataLen : ℕ) (effectiveOffset zoom : ℚ) : ℤ :=
  min ((dataLen : ℤ) - 1) ⌈effectiveOffset + zoom⌉

/-- Amount the candle sequence grew by at the front:
`dataDiff = data.length - prevDataLen.current` when the sequence grew,
`0` otherwise. -/
def dataDiffOf (prevDataLen dataLen : ℕ) : ℕ :=
  if prevDataLen < dataLen then dataLen - prevDataLen else 0

/-- The render-time synchronous offset adjustment:
`effectiveOffset = offset + dataDiff` when the sequence grew, the raw
offset otherwise. -/
def effectiveOffsetOf (offset : ℚ) (prevDataLen dataLen : ℕ) : ℚ :=
  if prevDataLen < dataLen then offset + ((dataLen - prevDataLen : ℕ) : ℚ)
  else offset

/-- Offset reset on a shrink or replacement of the candle sequence:
`setOffset(Math.max(0, data.length - 60))`. -/
def resetOffsetOnShrink (dataLen : ℕ) : ℚ :=
  max 0 ((dataLen : ℚ) - 60)

/-- Safe volume moving-average window: `Math.max(1, Math.round(volMALength))`
applied to a whole-number setting. -/
def vLenOf (volMALength : ℕ) : ℕ := max 1 volMALength

/-- Trailing volume moving average of bar `i`: the mean over the `vLen` bars
strictly preceding `i` (the `k = 1 .. vLen` loop over `data[i - k].volume`),
defined only when `i >= vLen`. -/
def volMA (data : List CandleData) (volMALength i : ℕ) : Option ℚ :=
  let vLen := vLenOf volMALength
  if vLen ≤ i then
    some ((∑ k ∈ Finset.range vLen,
      (data.getD (i - (k + 1)) default).volume) / (vLen : ℚ))
  else none

/-- Volume-anomaly flag of bar `i`: set exactly when the trailing average
exists and `d.volume >= volMA`. -/
def isVolAnomaly (data : List CandleData) (volMALength i : ℕ) : Bool :=
  match volMA data volMALength i with
  | some m => decide (m ≤ (data.getD i default).volume)
  | none => false

/-- Closing-price moving average array entry `maData[i]`: mean of the
`maLength` closes ending at bar `i`, present only when `i >= maLength - 1`
and `i` indexes the data array. -/
def maData (data : List CandleData) (maLength i : ℕ) : Option ℚ :=
  if maLength - 1 ≤ i ∧ i < data.length then
    some ((∑ k ∈ Finset.range maLength,
      (data.getD (i - k) default).close) / (maLength : ℚ))
  else none

/-- Buy / sell side of a Granville signal. -/
inductive GranvilleType where
  | B
  | S
deriving DecidableEq, Repr

/-- One Granville signal marker as built by the source. -/
structure GranvilleSignal where
  type : GranvilleType
  code : ℕ
  label : String
deriving DecidableEq, Repr

/-- Granville signal of bar `i`: guarded by `granvilleEnabled && i > maLength`
and both moving-average values being present, then the four rules are tried
in order B1 breakout, S5 breakdown, B4 oversold, S8 overbought; the first
match wins. -/
def granvilleSignal (data : List CandleData) (maLength : ℕ)
    (granvilleEnabled : Bool) (i : ℕ) : Option GranvilleSignal :=
  if granvilleEnabled = true ∧ maLength < i then
    match maData data maLength i, maData data maLength (i - 1) with
    | some currentMa, some prevMa =>
      let prevPrice := (data.getD (i - 1) default).close
      let currPrice := (data.getD i default).close
      let bias := (currPrice - currentMa) / currentMa
      if ¬currentMa < prevMa ∧ prevPrice < prevMa ∧ currentMa < currPrice then
        some ⟨GranvilleType.B, 1, "突破"⟩
      else if ¬prevMa < currentMa ∧ prevMa < prevPrice ∧ currPrice < currentMa then
        some ⟨GranvilleType.S, 5, "跌破"⟩
      else if bias < -0.20 then
        some ⟨GranvilleType.B, 4, "超賣"⟩
      else if 0.20 < bias then
        some ⟨GranvilleType.S, 8, "超買"⟩
      else none
    | _, _ => none
  else none

/-- Role of a marked pivot. -/
inductive PointType where
  | p0
  | p1
  | p2
deriving DecidableEq, Repr

/-- A marked pivot (`ChartPoint` in src/types). -/
structure ChartPoint where
  index : ℕ
  price : ℚ
  date : String
  type : PointType
deriving DecidableEq, Repr

/-- Re-derivation of one pivot index against the current candle sequence
(the body of `mappedPoints`): look the stored date up with `findIndex`;
when absent fall back to shifting the stored index by `dataDiff`. -/
def remapPoint (data : List CandleData) (dataDiff : ℕ) (p : ChartPoint) :
    ChartPoint :=
  match data.findIdx? (fun d => d.date == p.date) with
  | some newIndex => { p with index := newIndex }
  | none => { p with index := p.index + dataDiff }

/-- The `mappedPoints` memo: every pivot re-indexed against the current
sequence. -/
def mappedPoints (data : List CandleData) (dataDiff : ℕ)
    (points : List ChartPoint) : List ChartPoint :=
  points.map (remapPoint data dataDiff)

/-- C3 counterexample: on P0=100, P1=150, P2=120, r=0.5, no P3, the engine
does not produce w3Gold=180.9, w4Target=150.45, w5Target=200.45 as the
claim states. -/
theorem c3_counterexample :
    (computeResult initialResult ⟨some 100, some 150, some 120, none, none⟩ 0.5).w3Gold ≠ 180.9 ∧
    (computeResult initialResult ⟨some 100, some 150, some 120, none, none⟩ 0.5).w4Target ≠ 150.45 ∧
    (computeResult initialResult ⟨some 100, some 150, some 120, none, none⟩ 0.5).w5Target ≠ 200.45 := by
  norm_num [computeResult, mkValidResult]

/-- C3 amended: on P0=100, P1=150, P2=120, r=0.5, no P3, the engine produces
w1Height=50, w2RetracementPct=60, w3Min=170, w3Gold=200.9, w4Target=160.45
and w5Target=210.45. -/
theorem c3_scenario_a :
    (computeResult initialResult ⟨some 100, some 150, some 120, none, none⟩ 0.5).isValid = true ∧
    (computeResult initialResult ⟨some 100, some 150, some 120, none, none⟩ 0.5).w1Height = 50 ∧
    (computeResult initialResult ⟨some 100, some 150, some 120, none, none⟩ 0.5).w2RetracementPct = 60 ∧
    (computeResult initialResult ⟨some 100, some 150, some 120, none, none⟩ 0.5).w3Min = 170 ∧
    (computeResult initialResult ⟨some 100, some 150, some 120, none, none⟩ 0.5).w3Gold = 200.9 ∧
    (computeResult initialResult ⟨some 100, some 150, some 120, none, none⟩ 0.5).w4Target = 160.45 ∧
    (computeResult initialResult ⟨some 100, some 150, some 120, none, none⟩ 0.5).w5Target = 210.45 := by
  norm_num [computeResult, mkValidResult]

/-- Shared characterization of the engine on structurally valid inputs: every
output field in closed form. -/
lemma computeResult_valid_fields (prev : CalculationResult) (p0 p1 p2 r : ℚ)
    (p3o curo : Option ℚ)
    (h02 : p0 < p2) (h21 : p2 < p1)
    (h3 : ∀ v, p3o = some v → p2 < v) :
    (computeResult prev ⟨some p0, some p1, some p2, p3o, curo⟩ r).isValid = true ∧
    (computeResult prev ⟨some p0, some p1, some p2, p3o, curo⟩ r).w1Height = p1 - p0 ∧
    (computeResult prev ⟨some p0, some p1, some p2, p3o, curo⟩ r).w2RetracementPct
      = (p1 - p2) / (p1 - p0) * 100 ∧
    (computeResult prev ⟨some p0, some p1, some p2, p3o, curo⟩ r).w3Min = p2 + (p1 - p0) ∧
    (computeResult prev ⟨some p0, some p1, some p2, p3o, curo⟩ r).w3Gold
      = p2 + (p1 - p0) * 1.618 ∧
    (computeResult prev ⟨some p0, some p1, some p2, p3o, curo⟩ r).w4Target
      = p3o.getD (p2 + (p1 - p0) * 1.618)
        - (p3o.getD (p2 + (p1 - p0) * 1.618) - p2) * r ∧
    (computeResult prev ⟨some p0, some p1, some p2, p3o, curo⟩ r).w5Target
      = (computeResult prev ⟨some p0, some p1, some p2, p3o, curo⟩ r).w4Target
        + (p1 - p0) ∧
    (computeResult prev ⟨some p0, some p1, some p2, p3o, curo⟩ r).selectedRatio = r ∧
    (computeResult prev ⟨some p0, some p1, some p2, p3o, curo⟩ r).usingManualP3
      = p3o.isSome := by
  have h01 : p0 < p1 := h02.trans h21
  cases p3o with
  | none =>
    simp only [computeResult, not_le.mpr h01, if_false, not_le.mpr h02, not_le.mpr h21,
      mkValidResult, Option.getD_none, Option.isSome_none]
    simp
  | some v =>
    have hv : p2 < v := h3 v rfl
    simp only [computeResult, not_le.mpr h01, if_false, not_le.mpr h02, not_le.mpr h21,
      not_le.mpr hv, mkValidResult, Option.getD_some, Option.isSome_some]
    simp

/-- C1: for every input with P0 < P2 < P1, ratio r in the fixed set and an
optional P3 > P2, the engine returns a valid result with the claimed
formulas for every output field, where activeW3Peak is P3 when supplied
and w3Gold otherwise. -/
theorem c1_valid_projection (prev : CalculationResult) (p0 p1 p2 r : ℚ)
    (p3o curo : Option ℚ)
    (h02 : p0 < p2) (h21 : p2 < p1)
    (hr : r = 0.382 ∨ r = 0.5 ∨ r = 0.618)
    (h3 : ∀ v, p3o = some v → p2 < v) :
    (computeResult prev ⟨some p0, some p1, some p2, p3o, curo⟩ r).isValid = true ∧
    (computeResult prev ⟨some p0, some p1, some p2, p3o, curo⟩ r).w1Height = p1 - p0 ∧
    (computeResult prev ⟨some p0, some p1, some p2, p3o, curo⟩ r).w2RetracementPct
      = (p1 - p2) / (p1 - p0) * 100 ∧
    (computeResult prev ⟨some p0, some p1, some p2, p3o, curo⟩ r).w3Min = p2 + (p1 - p0) ∧
    (computeResult prev ⟨some p0, some p1, some p2, p3o, curo⟩ r).w3Gold
      = p2 + (p1 - p0) * 1.618 ∧
    (computeResult prev ⟨some p0, some p1, some p2, p3o, curo⟩ r).w4Target
      = p3o.getD (p2 + (p1 - p0) * 1.618)
        - (p3o.getD (p2 + (p1 - p0) * 1.618) - p2) * r ∧
    (computeResult prev ⟨some p0, some p1, some p2, p3o, curo⟩ r).w5Target
      = (computeResult prev ⟨some p0, some p1, some p2, p3o, curo⟩ r).w4Target
        + (p1 - p0) ∧
    (computeResult prev ⟨some p0, some p1, some p2, p3o, curo⟩ r).selectedRatio = r ∧
    (computeResult prev ⟨some p0, some p1, some p2, p3o, curo⟩ r).usingManualP3
      = p3o.isSome :=
  computeResult_valid_fields prev p0 p1 p2 r p3o curo h02 h21 h3

/-- C1 witness: the theorem applied at P0=1, P1=3, P2=2, r=0.5, no P3. -/
theorem c1_witness :
    (computeResult initialResult ⟨some 1, some 3, some 2, none, none⟩ 0.5).isValid = true :=
  (c1_valid_projection initialResult 1 3 2 0.5 none none (by norm_num) (by norm_num)
    (Or.inr (Or.inl rfl)) (fun v hv => by cases hv)).1

/-- C2: with the three required inputs present, the reported error reason is
determined by the first failing check in the fixed order P1 > P0, P2 > P0,
P2 < P1, and (when P3 is supplied) P3 > P2; a later check never contributes,
and the failure is reported through the validity flag and reason, the result
being an ordinary value rather than an exception. -/
theorem c2_validation_order (prev : CalculationResult) (p0 p1 p2 r : ℚ)
    (p3o curo : Option ℚ) :
    (computeResult prev ⟨some p0, some p1, some p2, p3o, curo⟩ r).error
      = (if p1 ≤ p0 then some WaveError.p1NotAboveP0
         else if p2 ≤ p0 then some WaveError.p2BrokeBelowP0
         else if p1 ≤ p2 then some WaveError.p2NotBelowP1
         else match p3o with
           | some v => if v ≤ p2 then some WaveError.p3NotAboveP2 else none
           | none => none) ∧
    ((computeResult prev ⟨some p0, some p1, some p2, p3o, curo⟩ r).isValid = true
      ↔ (computeResult prev ⟨some p0, some p1, some p2, p3o, curo⟩ r).error = none) := by
  cases p3o with
  | none =>
    simp only [computeResult]
    split_ifs <;> simp [mkValidResult]
  | some v =>
    simp only [computeResult]
    split_ifs <;> simp [mkValidResult]

/-- C5: under the structural hypotheses P0 < P1, P0 < P2 < P1 and a ratio
from the fixed set, with activeW3Peak either a supplied P3 above P2 or the
projected w3Gold, the computed w4Target equals
activeW3Peak - (activeW3Peak - P2) * r and w5Target - w4Target equals
P1 - P0 exactly. -/
theorem c5_w4_w5_relation (prev : CalculationResult) (p0 p1 p2 r : ℚ)
    (p3o curo : Option ℚ)
    (h01 : p0 < p1) (h02 : p0 < p2) (h21 : p2 < p1)
    (hr : r = 0.382 ∨ r = 0.5 ∨ r = 0.618)
    (h3 : ∀ v, p3o = some v → p2 < v) :
    (computeResult prev ⟨some p0, some p1, some p2, p3o, curo⟩ r).w4Target
      = p3o.getD (p2 + (p1 - p0) * 1.618)
        - (p3o.getD (p2 + (p1 - p0) * 1.618) - p2) * r ∧
    (computeResult prev ⟨some p0, some p1, some p2, p3o, curo⟩ r).w5Target
      - (computeResult prev ⟨some p0, some p1, some p2, p3o, curo⟩ r).w4Target
      = p1 - p0 := by
  obtain ⟨-, -, -, -, -, hw4, hw5, -, -⟩ :=
    computeResult_valid_fields prev p0 p1 p2 r p3o curo h02 h21 h3
  exact ⟨hw4, by rw [hw5]; ring⟩

/-- C5 witness: the theorem applied at P0=0, P1=10, P2=5, r=0.618, P3=50. -/
theorem c5_witness :
    (computeResult initialResult ⟨some 0, some 10, some 5, some 50, none⟩ 0.618).w5Target
      - (computeResult initialResult ⟨some 0, some 10, some 5, some 50, none⟩ 0.618).w4Target
      = 10 - 0 :=
  (c5_w4_w5_relation initialResult 0 10 5 0.618 (some 50) none (by norm_num)
    (by norm_num) (by norm_num) (Or.inr (Or.inr rfl))
    (fun v hv => by injection hv with h; rw [← h]; norm_num)).2

/-- C10 counterexample: the initial result state does not have all numeric
fields zero — its selectedRatio starts at 0.382. -/
theorem c10_counterexample :
    initialResult.selectedRatio = 0.382 ∧ initialResult.selectedRatio ≠ 0 := by
  norm_num [initialResult]

/-- C10 amended: whenever the engine reports an invalid result (failed
validation or incomplete required inputs), every computed field keeps the
value of the previous result state; only the validity flag and the error
reason are rewritten. -/
theorem c10_error_retention (prev : CalculationResult) (inputs : WaveInputs)
    (r : ℚ) (h : (computeResult prev inputs r).isValid = false) :
    (computeResult prev inputs r).w1Height = prev.w1Height ∧
    (computeResult prev inputs r).w2RetracementPct = prev.w2RetracementPct ∧
    (computeResult prev inputs r).w3Min = prev.w3Min ∧
    (computeResult prev inputs r).w3Gold = prev.w3Gold ∧
    (computeResult prev inputs r).w4Target = prev.w4Target ∧
    (computeResult prev inputs r).w5Target = prev.w5Target ∧
    (computeResult prev inputs r).selectedRatio = prev.selectedRatio ∧
    (computeResult prev inputs r).usingManualP3 = prev.usingManualP3 := by
  rcases inputs with ⟨p0o, p1o, p2o, p3o, curo⟩
  cases p0o with
  | none => simp [computeResult]
  | some valP0 =>
    cases p1o with
    | none => simp [computeResult]
    | some valP1 =>
      cases p2o with
      | none => simp [computeResult]
      | some valP2 =>
        cases p3o with
        | none =>
          simp only [computeResult] at h ⊢
          split_ifs at h ⊢ <;> simp_all [mkValidResult]
        | some valP3 =>
          simp only [computeResult] at h ⊢
          split_ifs at h ⊢ <;> simp_all [mkValidResult]

/-- Sample previous result state used to witness the retention theorem. -/
def samplePrev : CalculationResult :=
  { isValid := true
    error := none
    w1Height := 7
    w2RetracementPct := 31
    w3Min := 23
    w3Gold := 29
    w4Target := 26
    w5Target := 33
    selectedRatio := 0.5
    usingManualP3 := true }

/-- C10 witness: the retention theorem applied to a failing input
(P1 = 3 not above P0 = 5) over a nontrivial previous state. -/
theorem c10_witness :
    (computeResult samplePrev ⟨some 5, some 3, some 1, none, none⟩ 0.5).w1Height
      = samplePrev.w1Height :=
  (c10_error_retention samplePrev ⟨some 5, some 3, some 1, none, none⟩ 0.5
    (by norm_num [computeResult])).1

/-- C4 counterexample: with zoom 60, offset 0 over 200 candles the derived
inclusive visible range is [0, 60] — the end index is 60, not 59 as the
claim states. -/
theorem c4_counterexample :
    visibleStartIndex 0 = 0 ∧ visibleEndIndex 200 0 60 = 60 ∧
    visibleEndIndex 200 0 60 ≠ 59 := by
  norm_num [visibleStartIndex, visibleEndIndex]

/-- C4 amended: with zoom 60 and offset 0 over 200 candles the inclusive
visible range is [0, 60] (the end index is the ceiling of offset + zoom,
clamped to length - 1); after panning to offset 150 the nominal end 210 is
clamped to 199, giving [150, 199]. -/
theorem c4_visible_range :
    visibleStartIndex 0 = 0 ∧ visibleEndIndex 200 0 60 = 60 ∧
    visibleStartIndex 150 = 150 ∧ visibleEndIndex 200 150 60 = 199 ∧
    ⌈(150 : ℚ) + 60⌉ = 210 ∧ min ((200 : ℤ) - 1) 210 = 199 := by
  norm_num [visibleStartIndex, visibleEndIndex]

/-- C9 counterexample: after a shrink to 200 candles with current zoom 15
(a value inside [15, 300]) the offset resets to 140, so the visible range
is [140, 155]; it neither spans the current zoom count ending at the newest
candle nor ends at index 199. -/
theorem c9_counterexample :
    resetOffsetOnShrink 200 = 140 ∧
    visibleStartIndex (resetOffsetOnShrink 200) = 140 ∧
    visibleEndIndex 200 (resetOffsetOnShrink 200) 15 = 155 ∧
    visibleEndIndex 200 (resetOffsetOnShrink 200) 15 ≠ 199 := by
  norm_num [resetOffsetOnShrink, visibleStartIndex, visibleEndIndex]

/-- C9 amended: when the candle sequence shrinks or is replaced the offset
resets to max(0, length - 60) — the hardcoded default window of 60 candles,
not the current zoom — so for any length of at least 60 the derived visible
range ends at the newest candle and starts 60 candles earlier; the claimed
behaviour therefore holds exactly when zoom is 60. -/
theorem c9_reset_shows_last_window (len : ℕ) (h : 60 ≤ len) :
    resetOffsetOnShrink len = (len : ℚ) - 60 ∧
    visibleStartIndex (resetOffsetOnShrink len) = (len : ℤ) - 60 ∧
    visibleEndIndex len (resetOffsetOnShrink len) 60 = (len : ℤ) - 1 := by
  have hq : (60 : ℚ) ≤ (len : ℚ) := by exact_mod_cast h
  have h1 : resetOffsetOnShrink len = (len : ℚ) - 60 := by
    rw [resetOffsetOnShrink, max_eq_right (by linarith)]
  refine ⟨h1, ?_, ?_⟩
  · rw [visibleStartIndex, h1, max_eq_right (by linarith)]
    have : (len : ℚ) - 60 = (((len : ℤ) - 60 : ℤ) : ℚ) := by push_cast; ring
    rw [this, Int.floor_intCast]
  · rw [visibleEndIndex, h1]
    have : (len : ℚ) - 60 + 60 = (((len : ℤ) : ℤ) : ℚ) := by push_cast; ring
    rw [this, Int.ceil_intCast]
    omega

/-- C9 witness: the amended theorem applied at length 200: the reset shows
candles 140 through 199. -/
theorem c9_witness :
    visibleEndIndex 200 (resetOffsetOnShrink 200) 60 = (200 : ℤ) - 1 :=
  (c9_reset_shows_last_window 200 (by norm_num)).2.2

/-- The backwards loop sum over the window bars equals the forwards sum over
the same window: summing `data[i - k]` for `k = 1 .. N` is summing
`data[i - N + k]` for `k = 0 .. N - 1`. -/
lemma sum_window_reflect (data : List CandleData) (N i : ℕ) (hNi : N ≤ i) :
    (∑ k ∈ Finset.range N, (data.getD (i - (k + 1)) default).volume)
      = ∑ k ∈ Finset.range N, (data.getD (i - N + k) default).volume := by
  rw [← Finset.sum_range_reflect (fun k => (data.getD (i - N + k) default).volume) N]
  refine Finset.sum_congr rfl ?_
  intro k hk
  simp only [Finset.mem_range] at hk
  have hidx : i - N + (N - 1 - k) = i - (k + 1) := by omega
  rw [hidx]

/-- C6: for every bar index inside the data and every whole window setting
N of at least 1, the volume-anomaly flag is set iff at least N prior bars
exist and the bar volume is at least the arithmetic mean of the N bars
strictly preceding it; with fewer than N prior bars the flag is clear and
the trailing average is undefined. -/
theorem c6_volume_anomaly_flag (data : List CandleData) (N i : ℕ)
    (hN : 1 ≤ N) (hi : i < data.length) :
    (isVolAnomaly data N i = true ↔
      N ≤ i ∧
      (∑ k ∈ Finset.range N, (data.getD (i - N + k) default).volume) / (N : ℚ)
        ≤ (data.getD i default).volume) ∧
    (i < N → isVolAnomaly data N i = false ∧ volMA data N i = none) := by
  have hv : vLenOf N = N := max_eq_right hN
  constructor
  · by_cases hNi : N ≤ i
    · simp only [isVolAnomaly, volMA, hv, if_pos hNi, sum_window_reflect data N i hNi,
        decide_eq_true_eq]
      exact ⟨fun h => ⟨hNi, h⟩, fun h => h.2⟩
    · simp only [isVolAnomaly, volMA, hv, if_neg hNi]
      simp [hNi]
  · intro hlt
    have hNi : ¬ N ≤ i := by omega
    constructor
    · simp only [isVolAnomaly, volMA, hv, if_neg hNi]
    · simp only [volMA, hv, if_neg hNi]

/-- Sample candle sequence used to witness the volume-anomaly theorem. -/
def sampleCandles : List CandleData :=
  [⟨"2024-01-02", 1, 1, 1, 1, 10⟩,
   ⟨"2024-01-03", 1, 1, 1, 1, 20⟩,
   ⟨"2024-01-04", 1, 1, 1, 1, 30⟩]

/-- C6 witness: the theorem applied with window 2 at bar 2 of the sample
sequence, whose volume 30 meets the trailing mean 15. -/
theorem c6_witness : isVolAnomaly sampleCandles 2 2 = true := by
  refine (c6_volume_anomaly_flag sampleCandles 2 2 (by norm_num) (by simp [sampleCandles])).1.mpr
    ⟨by norm_num, ?_⟩
  simp [sampleCandles, Finset.sum_range_succ]
  norm_num

/-- A date lookup by `findIndex` returns position `i` whenever the date list
is duplicate-free and position `i` carries the sought date. -/
lemma findIdx?_date_eq (l : List CandleData) (s : String) (i : ℕ)
    (hi : i < l.length)
    (hnd : (l.map CandleData.date).Nodup)
    (hdate : l[i].date = s) :
    l.findIdx? (fun d => d.date == s) = some i := by
  rw [List.findIdx?_eq_some_iff_getElem]
  refine ⟨hi, by simp [hdate], ?_⟩
  intro j hji
  simp only [Bool.not_eq_true, beq_eq_false_iff_ne, ne_eq]
  intro hjs
  have hij : j ≠ i := Nat.ne_of_lt hji
  have hjl : j < l.length := lt_trans hji hi
  have h1 : (l.map CandleData.date).get ⟨j, by simpa using hjl⟩
      = (l.map CandleData.date).get ⟨i, by simpa using hi⟩ := by
    simp only [List.get_eq_getElem, List.getElem_map]
    rw [hjs, hdate]
  have h2 := (hnd.get_inj_iff.mp h1)
  exact hij (congrArg Fin.val h2)

/-- C7: prepending a block of K older candles (all dates in the grown
sequence distinct) makes the date-keyed re-derivation return oldIndex + K
for every pivot whose stored date names its stored index in the old
sequence, and the render-time effective offset is likewise shifted by
exactly K. -/
theorem c7_reindex_on_prepend (pre old : List CandleData)
    (points : List ChartPoint) (offset : ℚ)
    (hnd : ((pre ++ old).map CandleData.date).Nodup)
    (hpts : ∀ p ∈ points, ∃ h : p.index < old.length,
      p.date = (old.get ⟨p.index, h⟩).date) :
    mappedPoints (pre ++ old) (dataDiffOf old.length (pre ++ old).length) points
      = points.map (fun p => { p with index := p.index + pre.length }) ∧
    effectiveOffsetOf offset old.length (pre ++ old).length
      = offset + (pre.length : ℚ) := by
  constructor
  · refine List.map_congr_left ?_
    intro p hp
    obtain ⟨h, hd⟩ := hpts p hp
    have hg : pre.length + p.index < (pre ++ old).length := by
      simp only [List.length_append]; omega
    have hsub : pre.length + p.index - pre.length = p.index := by omega
    have hglobal : (pre ++ old)[pre.length + p.index].date = p.date := by
      rw [List.getElem_append_right (Nat.le_add_right pre.length p.index)]
      simp only [Nat.add_sub_cancel_left]
      rw [hd]
      simp only [List.get_eq_getElem]
    have hfind := findIdx?_date_eq (pre ++ old) p.date (pre.length + p.index) hg hnd hglobal
    rw [remapPoint, hfind]
    have : pre.length + p.index = p.index + pre.length := by omega
    rw [this]
  · rcases Nat.eq_zero_or_pos pre.length with h0 | hpos
    · rw [effectiveOffsetOf, if_neg (by simp only [List.length_append]; omega)]
      simp [h0]
    · rw [effectiveOffsetOf, if_pos (by simp only [List.length_append]; omega)]
      have : (pre ++ old).length - old.length = pre.length := by
        simp only [List.length_append]; omega
      rw [this]

/-- Older candles prepended in front of the sample sequence when witnessing
the re-indexing theorem. -/
def olderCandles : List CandleData :=
  [⟨"2023-12-29", 1, 1, 1, 1, 5⟩, ⟨"2024-01-01", 1, 1, 1, 1, 6⟩]

/-- C7 witness: a pivot stored at index 1 of the sample sequence is
re-derived at index 1 + 2 = 3 after two older candles are prepended, and
the pan offset 40 becomes 42. -/
theorem c7_witness :
    mappedPoints (olderCandles ++ sampleCandles)
        (dataDiffOf sampleCandles.length (olderCandles ++ sampleCandles).length)
        [⟨1, 20, "2024-01-03", PointType.p1⟩]
      = [⟨3, 20, "2024-01-03", PointType.p1⟩] ∧
    effectiveOffsetOf 40 sampleCandles.length (olderCandles ++ sampleCandles).length
      = 40 + (olderCandles.length : ℚ) := by
  have h := c7_reindex_on_prepend olderCandles sampleCandles
    [⟨1, 20, "2024-01-03", PointType.p1⟩] 40
    (by simp [olderCandles, sampleCandles])
    (by
      intro p hp
      simp only [List.mem_singleton] at hp
      subst hp
      exact ⟨by simp [sampleCandles], by simp [sampleCandles]⟩)
  refine ⟨?_, h.2⟩
  rw [h.1]
  simp [olderCandles]

/-- Candle sequence whose closes are 10, 8, 20, used against the Granville
classifier at the first bar where both moving averages exist. -/
def granvilleSample : List CandleData :=
  [⟨"2024-02-01", 10, 10, 10, 10, 0⟩,
   ⟨"2024-02-02", 8, 8, 8, 8, 0⟩,
   ⟨"2024-02-03", 20, 20, 20, 20, 0⟩]

/-- C8 counterexample: at bar 2 with MA window 2 the moving average exists
for the bar (14) and for its predecessor (9) and the breakout-up condition
holds (MA not falling, close 8 below previous MA 9, close 20 above current
MA 14), yet no signal is assigned because the source additionally requires
the bar index to exceed the MA window length. -/
theorem c8_counterexample :
    maData granvilleSample 2 2 = some 14 ∧
    maData granvilleSample 2 1 = some 9 ∧
    (¬(14 : ℚ) < 9 ∧ (granvilleSample.getD 1 default).close < 9 ∧
      (14 : ℚ) < (granvilleSample.getD 2 default).close) ∧
    granvilleSignal granvilleSample 2 true 2 = none := by
  refine ⟨?_, ?_, ⟨by norm_num, ?_, ?_⟩, ?_⟩
  · simp [maData, granvilleSample, Finset.sum_range_succ]
    norm_num
  · simp [maData, granvilleSample, Finset.sum_range_succ]
    norm_num
  · simp [granvilleSample]
    norm_num
  · simp [granvilleSample]
    norm_num
  · simp [granvilleSignal]

/-- C8 amended: for every bar whose index strictly exceeds the MA window
length (the source's extra guard, which skips the first bar where both
averages are defined), with both moving-average values present, at most one
signal is assigned by testing in the fixed order breakout-up, breakdown-down,
oversold (bias strictly below -0.20), overbought (bias strictly above
+0.20); the first matching rule wins. -/
theorem c8_granville_priority (data : List CandleData) (maLength i : ℕ)
    (ma pma : ℚ)
    (hguard : maLength < i)
    (hma : maData data maLength i = some ma)
    (hpma : maData data maLength (i - 1) = some pma) :
    granvilleSignal data maLength true i =
      (if ¬ma < pma ∧ (data.getD (i - 1) default).close < pma ∧
          ma < (data.getD i default).close then
        some ⟨GranvilleType.B, 1, "突破"⟩
      else if ¬pma < ma ∧ pma < (data.getD (i - 1) default).close ∧
          (data.getD i default).close < ma then
        some ⟨GranvilleType.S, 5, "跌破"⟩
      else if ((data.getD i default).close - ma) / ma < -0.20 then
        some ⟨GranvilleType.B, 4, "超賣"⟩
      else if 0.20 < ((data.getD i default).close - ma) / ma then
        some ⟨GranvilleType.S, 8, "超買"⟩
      else none) := by
  rw [granvilleSignal, if_pos ⟨rfl, hguard⟩, hma, hpma]

/-- Candle sequence whose closes are 10, 8, 6, 20, giving a breakout-up
signal at bar 3 for MA window 2. -/
def granvilleSample2 : List CandleData :=
  [⟨"2024-03-01", 10, 10, 10, 10, 0⟩,
   ⟨"2024-03-02", 8, 8, 8, 8, 0⟩,
   ⟨"2024-03-03", 6, 6, 6, 6, 0⟩,
   ⟨"2024-03-04", 20, 20, 20, 20, 0⟩]

/-- C8 witness: the priority theorem applied at bar 3 with MA window 2:
the breakout-up rule fires (MA 13 not below previous MA 7 is rising, close
6 below 7, close 20 above 13) and yields the B1 signal. -/
theorem c8_witness :
    granvilleSignal granvilleSample2 2 true 3 = some ⟨GranvilleType.B, 1, "突破"⟩ := by
  have h := c8_granville_priority granvilleSample2 2 3 13 7 (by norm_num)
    (by simp [maData, granvilleSample2, Finset.sum_range_succ]; norm_num)
    (by simp [maData, granvilleSample2, Finset.sum_range_succ]; norm_num)
  rw [h]
  norm_num [granvilleSample2]
